import Mathlib

set_option maxHeartbeats 1000000

/-
  Shallow embedding of the zotero-esovdb CLI ("zotvid"), following the
  v1.5.0 source (src/unnamed/part_000) which agrees with src/bin/index.js
  on every construct the claims cite.  JavaScript values that may be
  `undefined` are modelled with `Option`; JS truthiness of strings and
  numbers is modelled explicitly.  Remote endpoints (Zotero, the ESOVDB
  proxy) are modelled as oracles supplied through environment records,
  and the observable calls made to them are collected as effect traces.
-/

/-- JS truthiness of a possibly-undefined string: `undefined` and `""` are falsy. -/
def jsTruthyStr : Option String → Bool
  | none => false
  | some s => !s.isEmpty

/-- JS truthiness of a possibly-undefined number: `undefined` and `0` are falsy. -/
def jsTruthyNat : Option Nat → Bool
  | none => false
  | some n => n != 0

/-- JS string coercion `'' + x` of a possibly-undefined string value. -/
def jsStrCoe : Option String → String
  | none => "undefined"
  | some s => s

/-- One presenter entry of an ESOVDB video record; either name part may be absent. -/
structure Presenter where
  firstName : Option String
  lastName : Option String
deriving DecidableEq

/-- One Zotero creator entry as produced by `formatItems`: either a single
combined `name` field or split `firstName`/`lastName` fields. -/
inductive CreatorEntry where
  | single (creatorType : String) (name : String)
  | split (creatorType : String) (firstName lastName : String)
deriving DecidableEq

/-- The merged name expression of `formatItems`:
`presenter.firstName || '' + presenter.lastName || ''`, which by JS
precedence parses as `firstName || (('' + lastName) || '')`. -/
def combinedName (p : Presenter) : String :=
  if jsTruthyStr p.firstName then p.firstName.getD ""
  else
    let t := "" ++ jsStrCoe p.lastName
    if !t.isEmpty then t else ""

/-- The body of the presenters `.map` callback in `formatItems`.  The `if`
has no `else`, so a presenter whose `lastName` is the sentinel `"Unknown"`
makes the callback return `undefined`, modelled as `none`. -/
def mapPresenter (p : Presenter) : Option CreatorEntry :=
  if p.lastName ≠ some "Unknown" then
    some
      (if !(jsTruthyStr p.firstName) || !(jsTruthyStr p.lastName) then
        .single "contributor" (combinedName p)
      else
        .split "contributor" (p.firstName.getD "") (p.lastName.getD ""))
  else none

/-- `video.presenters.length > 0 ? video.presenters.map(...) : []`. -/
def presentersOf (ps : List Presenter) : List (Option CreatorEntry) :=
  if ps.length > 0 then ps.map mapPresenter else []

/-- One ESOVDB video record as returned by the proxy (`getVideos`). -/
structure Video where
  recordId : String
  title : String
  desc : Option String
  presenters : List Presenter
  topic : Option String
  series : Option String
  seriesId : String
  seriesCount : Nat
  zoteroSeries : Option String
  vol : Option Nat
  no : Option Nat
  format : Option String
  provider : Option String
  publisher : Option String
  year : Option Nat
  runningTime : Option String
  language : Option String
  url : Option String
  accessDate : Option String
  location : Option String
  plusCode : Option String
  learnMore : Option String
  esovdbId : String
  zoteroKey : Option String
  zoteroVersion : Option Nat
deriving DecidableEq

/-- The Zotero `items/new` template for `videoRecording`.  Every schema
field that template carries is overwritten by the explicit properties of
the payload built in `formatItems`, and in particular the template never
contains `key` or `version` fields; whatever it carries is therefore
modelled as opaque data threaded through the spread `...template`. -/
structure Template where
  extraData : List (String × String)
deriving DecidableEq

/-- The `volume` field: `video.vol ? `${video.vol}:${video.no}` : video.no`. -/
inductive JSVolume where
  | pair (vol : Nat) (no : Option Nat)
  | single (no : Option Nat)
deriving DecidableEq

/-- The fixed Airtable view URL that `formatItems` puts in front of the
record id in `archiveLocation`. -/
def archiveBase : String :=
  "https://airtable.com/tbl3WP689vHdmg7P2/viwD9Tpr6JAAr97CW/"

/-- The static `topics` Map of part_000: ESOVDB topic → Zotero collection key. -/
def topics : String → Option String := fun t =>
  if t = "Mantle Geodynamics, Geochemistry, Convection, Rheology, & Seismic Imaging and Modeling" then some "5XQD67DA"
  else if t = "Igneous & Metamorphic Petrology, Volcanism, & Hydrothermal Systems" then some "L6JMIGTE"
  else if t = "Alluvial, Pluvial & Terrestrial Sedimentology, Erosion & Weathering, Geomorphology, Karst, Groundwater & Provenance" then some "BV7G3CIC"
  else if t = "Early Earth, Life\x27s Origins, Deep Biosphere, and the Formation of the Planet" then some "9DK53U7F"
  else if t = "Geological Stories, News, Tours, & Field Trips" then some "XDFHQTC3"
  else if t = "History, Education, Careers, Field Work, Economic Geology, & Technology" then some "M4NKIHBK"
  else if t = "Glaciation, Atmospheric Science, Carbon Cycle, & Climate" then some "AD997U4T"
  else if t = "The Anthropocene" then some "P2WNJD9N"
  else if t = "Geo-Archaeology" then some "UJDCHPB5"
  else if t = "Paleoclimatology, Isotope Geochemistry, Radiometric Dating, Deep Time, & Snowball Earth" then some "L4PLXHN8"
  else if t = "Seafloor Spreading, Oceanography, Paleomagnetism, & Geodesy" then some "NPDV3BHH"
  else if t = "Tectonics, Terranes, Structural Geology, & Dynamic Topography" then some "U3JYUDHI"
  else if t = "Seismology, Mass Wasting, Tsunamis, & Natural Disasters" then some "63TE3Y26"
  else if t = "Minerals, Mining & Resources, Crystallography, & Solid-state Chemistry" then some "YY5W7DB8"
  else if t = "Marine & Littoral Sedimentology, Sequence Stratigraphy, Carbonates, Evaporites, Coal, Petroleum, and Mud Volcanism" then some "37J3LYFL"
  else if t = "Planetary Geology, Impact Events, Astronomy, & the Search for Extraterrestrial Life" then some "HLV7WMZQ"
  else if t = "Paleobiology, Mass Extinctions, Fossils, & Evolution" then some "VYWX6R2B"
  else none

/-- The static `collections` Map of part_000: parent collection name →
Zotero parent collection key. -/
def collections : String → Option String := fun s =>
  if s = "series" then some "HYQEFRGR"
  else if s = "topics" then some "EGB8TQZ8"
  else none

/-- The `extras` array built at the top of `formatItems` (push order:
Topic, Location, Plus Code, Learn More, each only when truthy). -/
def extrasOf (video : Video) : List (String × String) :=
  (if jsTruthyStr video.topic then [("Topic", video.topic.getD "")] else []) ++
  (if jsTruthyStr video.location then [("Location", video.location.getD "")] else []) ++
  (if jsTruthyStr video.plusCode then [("Plus Code", video.plusCode.getD "")] else []) ++
  (if jsTruthyStr video.learnMore then [("Learn More", video.learnMore.getD "")] else [])

/-- The Zotero item payload built by `formatItems` (part_000 lines 360-395). -/
structure Payload where
  templateData : List (String × String)
  itemType : String
  title : String
  creators : List (Option CreatorEntry)
  abstractNote : Option String
  videoRecordingFormat : Option String
  seriesTitle : Option String
  volume : JSVolume
  numberOfVolumes : Option Nat
  place : Option String
  studio : Option String
  date : Option Nat
  runningTime : Option String
  language : Option String
  ISBN : String
  shortTitle : String
  url : Option String
  accessDate : Option String
  archive : String
  archiveLocation : String
  libraryCatalog : String
  callNumber : String
  rights : String
  extra : String
  tags : List String
  collectionKeys : List String
  key : Option String
  version : Option Nat
deriving DecidableEq

/-- The pure payload construction of `formatItems`: the object literal
(part_000 lines 360-390) followed by the `key`/`version` guard
(lines 392-395).  The guard sets both fields exactly when both
`video.zoteroKey` and `video.zoteroVersion` are truthy. -/
def formatItemsCore (video : Video) (template : Option Template) : Payload :=
  { templateData := (template.map Template.extraData).getD []
    itemType := "videoRecording"
    title := video.title
    creators := presentersOf video.presenters
    abstractNote := video.desc
    videoRecordingFormat := video.format
    seriesTitle := video.series
    volume :=
      if jsTruthyNat video.vol then JSVolume.pair (video.vol.getD 0) video.no
      else JSVolume.single video.no
    numberOfVolumes := if video.seriesCount > 1 then some video.seriesCount else none
    place := video.provider
    studio := video.publisher
    date := video.year
    runningTime := video.runningTime
    language := video.language
    ISBN := ""
    shortTitle := ""
    url := video.url
    accessDate := video.accessDate
    archive := "Earth Science Online Video Database"
    archiveLocation := archiveBase ++ video.recordId
    libraryCatalog := ""
    callNumber := video.esovdbId
    rights := ""
    extra := String.intercalate "\n" ((extrasOf video).map fun it => it.1 ++ ": " ++ it.2)
    tags := []
    collectionKeys :=
      match video.topic with
      | none => []
      | some t =>
        match topics t with
        | some k => [k]
        | none => []
    key :=
      if jsTruthyStr video.zoteroKey && jsTruthyNat video.zoteroVersion then video.zoteroKey
      else none
    version :=
      if jsTruthyStr video.zoteroKey && jsTruthyNat video.zoteroVersion then video.zoteroVersion
      else none }

/-- The `data` object of a Zotero collection-create response:
`{ success: {...}, failed: {...} }`.  `success = none` models an absent
(falsy) `success` property. -/
structure CreateData where
  success : Option (List String)
  failed : List String
deriving DecidableEq

/-- Oracle for the remote calls made while mapping records.
`createResult name = none` models a transport error (the `createCollection`
helper catches it, logs, and returns `undefined`, so the destructuring
`const { data } = ...` in `formatItems` throws and the record degrades). -/
structure MapEnv where
  createResult : String → Option CreateData

/-- Calls issued to remote stores during mapping:
`creates` are Zotero collection-create posts `(name, parentCollection)`;
`updates` are ESOVDB series-table write-backs `(seriesId, collectionKey)`. -/
structure MapFx where
  creates : List (String × String)
  updates : List (String × String)
deriving DecidableEq

/-- `createCollection(name, parent)` (part_000 lines 250-263): looks the
parent up in the `collections` Map; an unrecognized parent throws (caught,
returns `undefined`), a recognized one posts the collection.  Returns the
response data (if any) and the create calls actually posted. -/
def createCollection (env : MapEnv) (name parent : String) :
    Option CreateData × List (String × String) :=
  match collections parent with
  | some pk => (env.createResult name, [(name, pk)])
  | none => (none, [])

/-- The series-collection block of `formatItems` (part_000 lines 397-428):
a truthy `video.zoteroSeries` is pushed onto the payload's collections with
no remote call; otherwise a collection is created under the fixed `series`
parent, and on success its first key is pushed and written back to the
ESOVDB series table against `video.seriesId`.  All failures are caught and
the payload proceeds without that membership. -/
def seriesBlock (env : MapEnv) (video : Video) (p : Payload) : Payload × MapFx :=
  if jsTruthyStr video.series then
    if jsTruthyStr video.zoteroSeries then
      ({ p with collectionKeys := p.collectionKeys ++ [video.zoteroSeries.getD ""] }, ⟨[], []⟩)
    else
      let name := video.series.getD ""
      let cr := createCollection env name "series"
      match cr.1 with
      | none => (p, ⟨cr.2, []⟩)
      | some d =>
        match d.success with
        | none => (p, ⟨cr.2, []⟩)
        | some keys =>
          if keys.length > 0 then
            ({ p with collectionKeys := p.collectionKeys ++ [keys.headI] },
             ⟨cr.2, [(video.seriesId, keys.headI)]⟩)
          else (p, ⟨cr.2, []⟩)
  else (p, ⟨[], []⟩)

/-- `formatItems(video, template)` of part_000: payload construction,
`key`/`version` guard, then the series-collection block. -/
def formatItems (env : MapEnv) (video : Video) (template : Option Template) :
    Payload × MapFx :=
  seriesBlock env video (formatItemsCore video template)

/-- The mapping stage of the main IIFE:
`queueAsync(videos.map((video) => () => formatItems(video, template)))`,
i.e. a strictly sequential map (see `queueAsync` below), with the remote
calls of each `formatItems` accumulated in order. -/
def mapStage (env : MapEnv) (template : Option Template) : List Video → List Payload × MapFx
  | [] => ([], ⟨[], []⟩)
  | v :: vs =>
    let r := formatItems env v template
    let t := mapStage env template vs
    (r.1 :: t.1, ⟨r.2.creates ++ t.2.creates, r.2.updates ++ t.2.updates⟩)

/-- A Zotero multi-write response destructured by `postItems`:
`Object.values` of `successful`, `unchanged`, `failed`. -/
structure ZResponse (β : Type) where
  successful : List β
  unchanged : List β
  failed : List β
deriving DecidableEq

/-- The `data` sub-object of a successful Zotero item. -/
structure ZItemData where
  archiveLocation : String
deriving DecidableEq

/-- One successful Zotero item as consumed by the reconciliation step
(`item.key`, `item.version`, `item.data.archiveLocation`). -/
structure ZItem where
  key : String
  version : Nat
  data : ZItemData
deriving DecidableEq

/-- Accumulated observable state of the chunked submission loop
(part_000 lines 477-505): the chunks posted, the concatenated
`successful` items (`posted`), the three running totals, the number of
`sleep` calls, and whether a chunk post failed in transport (in which case
the destructuring of `undefined` throws and the run aborts). -/
structure LoopRes (α β : Type) where
  submitted : List (List α)
  posted : List β
  totalSuccessful : Nat
  totalUnchanged : Nat
  totalFailed : Nat
  sleeps : Nat
  aborted : Bool
deriving DecidableEq

/-- The chunk decomposition performed by the `while` loop via
`items.splice(0, chunkSize)`.  The `gas` parameter is an upper bound on
the recursion depth used only to make the recursion structural; it is
instantiated with the list length in `chunksOf`, and since the loop
removes at least one element per iteration whenever `c ≥ 1`, the
`gas = 0` branch with a nonempty list is never reached from `chunksOf`. -/
def chunksGo (c : Nat) : Nat → List α → List (List α)
  | _, [] => []
  | 0, _ :: _ => []
  | g + 1, x :: xs => (x :: xs).take c :: chunksGo c g (xs.drop (c - 1))

/-- The sequence of chunks `items.splice(0, c)` produces from `items`. -/
def chunksOf (c : Nat) (l : List α) : List (List α) := chunksGo c l.length l

/-- One execution of the `while (items.length)` submission loop.  `post`
is the Zotero `postItems` oracle for the chunk at each iteration index
(`none` = transport failure: `postItems` catches, logs, and returns
`undefined`, so the caller's destructuring throws and the loop aborts).
After a successful post the loop sleeps exactly when the remaining
`items.length` exceeds `chunkSize`.  `gas` as in `chunksGo`; its
unreachable branch is marked aborted so no completed-run fact can rest
on it. -/
def mainLoopGo (c : Nat) (post : Nat → List α → Option (ZResponse β)) :
    Nat → Nat → List α → LoopRes α β
  | _, _, [] => ⟨[], [], 0, 0, 0, 0, false⟩
  | 0, _, _ :: _ => ⟨[], [], 0, 0, 0, 0, true⟩
  | g + 1, i, x :: xs =>
    let chunk := (x :: xs).take c
    let rest := xs.drop (c - 1)
    match post i chunk with
    | none => ⟨[chunk], [], 0, 0, 0, 0, true⟩
    | some r =>
      let t := mainLoopGo c post g (i + 1) rest
      ⟨chunk :: t.submitted,
       r.successful ++ t.posted,
       r.successful.length + t.totalSuccessful,
       r.unchanged.length + t.totalUnchanged,
       r.failed.length + t.totalFailed,
       (if rest.length > c then 1 else 0) + t.sleeps,
       t.aborted⟩

/-- The submission loop started on a full payload list. -/
def mainLoop (c : Nat) (post : Nat → List α → Option (ZResponse β)) (items : List α) :
    LoopRes α β :=
  mainLoopGo c post items.length 0 items

/-- JS `\w` character class: `[A-Za-z0-9_]`. -/
def isWordChar (ch : Char) : Bool := ch.isAlphanum || ch == '_'

/-- `archiveLocation.match(/rec[\w]{14}$/)`: the pattern has fixed length
17 and is anchored at the end, so it matches exactly when the final 17
characters are `rec` followed by 14 word characters, and the match is that
suffix.  `none` models a `null` match (on which the JS `[0]` would throw). -/
def matchRecId (s : String) : Option String :=
  let cs := s.data
  if 17 ≤ cs.length ∧ (cs.drop (cs.length - 17)).take 3 = ['r', 'e', 'c'] ∧
      ((cs.drop (cs.length - 17)).drop 3).all isWordChar then
    some (String.mk (cs.drop (cs.length - 17)))
  else none

/-- One element of the `itemsToSync` array built for reconciliation:
`{ id: item.data.archiveLocation.match(/rec[\w]{14}$/)[0],
   fields: { 'Zotero Key': item.key, 'Zotero Version': item.version } }`. -/
structure SyncEntry where
  id : Option String
  zoteroKey : String
  zoteroVersion : Nat
deriving DecidableEq

/-- Builds one reconciliation entry from a successful Zotero item. -/
def mkSyncEntry (it : ZItem) : SyncEntry :=
  ⟨matchRecId it.data.archiveLocation, it.key, it.version⟩

/-- Environment of one full run of the main IIFE: the results each remote
endpoint would give.  `fetched = none` models `getVideos` failing (it
catches, logs, and returns `undefined`); `template = none` models
`getTemplate` failing likewise (the run then proceeds with an `undefined`
template, whose spread contributes nothing). -/
structure RunEnv where
  jsonMode : Bool
  writeOk : Bool
  chunkSize : Nat
  fetched : Option (List Video)
  template : Option Template
  mapEnv : MapEnv
  postResult : Nat → List Payload → Option (ZResponse ZItem)

/-- Observable outcome of one run of the main IIFE: the raw dump written
(json mode), whether the Zotero template endpoint was called, the chunks
posted to Zotero, the collection-create and series write-back calls, the
reconciliation call (the `itemsToSync` array sent to `videos/update`), and
the process exit code. -/
structure RunTrace where
  dumped : Option (List Video)
  templateFetched : Bool
  submitted : List (List Payload)
  creates : List (String × String)
  seriesUpdates : List (String × String)
  reconCall : Option (List SyncEntry)
  exitCode : Nat
deriving DecidableEq

/-- The main IIFE (part_000 lines 433-539).  Fetch failure and the
empty-videos guard throw into the top-level `catch`, which only calls
`console.error`, so the process then terminates normally with exit code 0.
In json mode the fetched records are written verbatim and `process.exit()`
(code 0) is called before any Zotero interaction; only a failing dump
write reaches `process.exit(1)`.  Otherwise the template is fetched, the
records are mapped sequentially, the payloads are submitted in chunks, and
if at least one item succeeded a single batched reconciliation call is
made; a transport-failed chunk aborts into the catch (exit code 0). -/
def mainRun (env : RunEnv) : RunTrace :=
  match env.fetched with
  | none => ⟨none, false, [], [], [], none, 0⟩
  | some videos =>
    if 0 < videos.length then
      if env.jsonMode then
        if env.writeOk then ⟨some videos, false, [], [], [], none, 0⟩
        else ⟨none, false, [], [], [], none, 1⟩
      else
        let m := mapStage env.mapEnv env.template videos
        let res := mainLoop env.chunkSize env.postResult m.1
        if res.aborted then
          ⟨none, true, res.submitted, m.2.creates, m.2.updates, none, 0⟩
        else
          ⟨none, true, res.submitted, m.2.creates, m.2.updates,
           if 0 < res.posted.length then some (res.posted.map mkSyncEntry) else none, 0⟩
    else ⟨none, false, [], [], [], none, 0⟩

/-
  Model of `queueAsync` (part_000 lines 119-132).  Asynchronous thunks are
  modelled as state transformers on an abstract world `σ`; a promise chain
  is a computation on the pair (world, `res` array), resolving with a
  value.  `a.then(k)` is monadic bind, `res.push(val)` appends to the
  array component (its JS return value, the new length, is never consumed
  by `queueAsync`, so the model lets the corresponding promise resolve
  with the pushed value instead).
-/

/-- A promise chain: takes (world, res) and yields (world, res) plus the
value it resolves with. -/
def Comp (σ α : Type) : Type := (σ × List α) → ((σ × List α) × α)

/-- Calling a thunk: runs it on the world, leaves `res` untouched. -/
def liftThunk (f : σ → σ × α) : Comp σ α :=
  fun s => (((f s.1).1, s.2), (f s.1).2)

/-- `res.push(val)`. -/
def pushVal (v : α) (s : σ × List α) : σ × List α := (s.1, s.2 ++ [v])

/-- `p.then(k)` where `k` returns another promise. -/
def bindC (p : Comp σ α) (k : α → Comp σ α) : Comp σ α :=
  fun s => k (p s).2 (p s).1

/-- The reducer body of `queueAsync` at a non-final index:
`a.then((val) => { res.push(val); return c(); })`. -/
def chainStep (a : Comp σ α) (f : σ → σ × α) : Comp σ α :=
  bindC a fun v s => liftThunk f (pushVal v s)

/-- The reducer body at the final index:
`a.then((val) => { res.push(val); return c().then((val) => res.push(val)); })`. -/
def lastStep (a : Comp σ α) (f : σ → σ × α) : Comp σ α :=
  bindC a fun v s =>
    let q := liftThunk f (pushVal v s)
    (pushVal q.2 q.1, q.2)

/-- `queueAsync(functor)`: for more than one thunk, `functor.reduce` with
no initial value chains the thunks — the accumulator starts as the first
thunk (invoked at index 1), every intermediate index contributes a
`chainStep`, and the final index a `lastStep`; for exactly one thunk,
`functor[0]().then((val) => res.push(val))`.  Returns the final world and
the `res` array.  (On an empty array the JS reduce would throw; the model
returns the empty result, and every theorem about `queueAsync` assumes a
nonempty list.) -/
def queueAsync (fs : List (σ → σ × α)) (w : σ) : σ × List α :=
  if fs.length > 1 then
    match fs with
    | f0 :: f1 :: rest =>
      (lastStep ((f1 :: rest).dropLast.foldl chainStep (liftThunk f0))
        ((f1 :: rest).getLast (List.cons_ne_nil f1 rest)) (w, [])).1
    | _ => (w, [])
  else
    match fs with
    | [f] => (bindC (liftThunk f) (fun v s => (pushVal v s, v)) (w, [])).1
    | _ => (w, [])

/-- Reference behavior: a strictly sequential map over the thunks,
threading the world left to right and collecting the values in order. -/
def seqMap : List (σ → σ × α) → σ → σ × List α
  | [], w => (w, [])
  | f :: rest, w =>
    let p := f w
    let q := seqMap rest p.1
    (q.1, p.2 :: q.2)

/-- Runs a list of thunks in order on (world, res), pushing every resolved
value; the semantic content of a fully-assembled `queueAsync` chain. -/
def runThunks : List (σ → σ × α) → (σ × List α) → σ × List α
  | [], s => s
  | f :: ts, s => runThunks ts (pushVal ((liftThunk f) s).2 ((liftThunk f) s).1)

/-- The CLI date-filter resolution of the main IIFE (part_000 lines
441-453): when both `createdAfter` and `modifiedAfter` are truthy, the one
whose key sits later in `Object.keys(program)` wins (`createdIdxGt` is the
comparison `indexOf('createdAfter') > indexOf('modifiedAfter')`);
otherwise each filter is copied into `params` only when truthy. -/
def resolveDateParams (pc pm : Option String) (createdIdxGt : Bool) :
    Option String × Option String :=
  if jsTruthyStr pc && jsTruthyStr pm then
    if createdIdxGt then (pc, none) else (none, pm)
  else
    ((if jsTruthyStr pc then pc else none), (if jsTruthyStr pm then pm else none))

/- Concrete inputs used by witnesses and counterexamples. -/

/-- A post oracle that reports every submitted item successful. -/
def postEcho : Nat → List Nat → Option (ZResponse Nat) :=
  fun _ ch => some ⟨ch, [], []⟩

/-- A presenter with the sentinel surname. -/
def presenterUnknown : Presenter := ⟨some "Jane", some "Unknown"⟩

/-- A presenter with only a given name. -/
def presenterGivenOnly : Presenter := ⟨some "Jane", none⟩

/-- A minimal video record (no topic, no series, never synced before). -/
def video0 : Video :=
  { recordId := "recABCDEFGHIJKLMN", title := "T", desc := none, presenters := []
    topic := none, series := none, seriesId := "", seriesCount := 0
    zoteroSeries := none, vol := none, no := none, format := none
    provider := none, publisher := none, year := none, runningTime := none
    language := none, url := none, accessDate := none, location := none
    plusCode := none, learnMore := none, esovdbId := "1", zoteroKey := none
    zoteroVersion := none }

/-- A video in series "S" whose fetched snapshot has no series collection key. -/
def videoS : Video :=
  { video0 with
    recordId := "recAAAAAAAAAAAAA1"
    series := some "S"
    seriesId := "recSERIESAAAAAAA1" }

/-- A video that already carries a Zotero key and version. -/
def videoSynced : Video :=
  { video0 with
    zoteroKey := some "ZKEY1234"
    zoteroVersion := some 7 }

/-- A mapping environment whose collection-create endpoint always succeeds
with the key `NEWKEY12`. -/
def envCreateOk : MapEnv := ⟨fun _ => some ⟨some ["NEWKEY12"], []⟩⟩

/-- A mapping environment whose collection-create endpoint always fails in
transport. -/
def envCreateFail : MapEnv := ⟨fun _ => none⟩

/-- A successful Zotero item echoing `video0`'s archive location. -/
def zitem0 : ZItem := ⟨"ZKEY1234", 101, ⟨archiveBase ++ "recABCDEFGHIJKLMN"⟩⟩

/-- A run in json (raw-dump) mode that fetches exactly `video0`. -/
def envJson : RunEnv :=
  { jsonMode := true, writeOk := true, chunkSize := 50
    fetched := some [video0], template := none, mapEnv := envCreateFail
    postResult := fun _ _ => none }

/-- A run whose source fetch fails. -/
def envFetchFail : RunEnv :=
  { jsonMode := false, writeOk := true, chunkSize := 50
    fetched := none, template := none, mapEnv := envCreateFail
    postResult := fun _ _ => none }

/-- A normal run fetching `video0` whose single chunk post succeeds with
`zitem0`. -/
def envRecon : RunEnv :=
  { jsonMode := false, writeOk := true, chunkSize := 50
    fetched := some [video0], template := none, mapEnv := envCreateFail
    postResult := fun _ _ => some ⟨[zitem0], [], []⟩ }

/-- Concrete thunks on a counter world, used to exercise `queueAsync`. -/
def thunkA : Nat → Nat × Nat := fun n => (n + 1, n * 10)

/-- A second concrete thunk. -/
def thunkB : Nat → Nat × Nat := fun n => (n + 2, n * 100)

/-- A third concrete thunk. -/
def thunkC : Nat → Nat × Nat := fun n => (n * 3, n + 7)

/- Helper lemmas about the chunk decomposition and the submission loop. -/

theorem string_mk_data (s : String) : String.mk s.data = s := by
  cases s; rfl

theorem take_cons_append_drop {α : Type} (c : Nat) (hc : 1 ≤ c) (x : α) (xs : List α) :
    (x :: xs).take c ++ xs.drop (c - 1) = x :: xs := by
  obtain ⟨k, rfl⟩ : ∃ k, c = k + 1 := ⟨c - 1, by omega⟩
  simp [List.take_succ_cons, List.take_append_drop]

theorem chunksGo_flatten {α : Type} (c : Nat) (hc : 1 ≤ c) :
    ∀ (g : Nat) (l : List α), l.length ≤ g → (chunksGo c g l).flatten = l := by
  intro g
  induction g with
  | zero =>
    intro l hl
    match l with
    | [] => rfl
    | x :: xs => simp at hl
  | succ g ih =>
    intro l hl
    match l with
    | [] => rfl
    | x :: xs =>
      simp only [chunksGo, List.flatten_cons]
      simp only [List.length_cons] at hl
      rw [ih (xs.drop (c - 1)) (by rw [List.length_drop]; omega)]
      exact take_cons_append_drop c hc x xs

theorem chunksGo_length {α : Type} (c : Nat) (hc : 1 ≤ c) :
    ∀ (g : Nat) (l : List α), l.length ≤ g →
      (chunksGo c g l).length = (l.length + c - 1) / c := by
  intro g
  induction g with
  | zero =>
    intro l hl
    match l with
    | [] => simpa [chunksGo] using (Nat.div_eq_of_lt (by omega)).symm
    | x :: xs => simp at hl
  | succ g ih =>
    intro l hl
    match l with
    | [] => simpa [chunksGo] using (Nat.div_eq_of_lt (by omega)).symm
    | x :: xs =>
      simp only [chunksGo, List.length_cons]
      simp only [List.length_cons] at hl
      have hdrop : (xs.drop (c - 1)).length = xs.length + 1 - c := by
        rw [List.length_drop]; omega
      rw [ih (xs.drop (c - 1)) (by rw [hdrop]; omega), hdrop]
      by_cases hcn : c < xs.length + 1
      · have e0 : xs.length + 1 - c + c - 1 = xs.length := by omega
        have e1 : xs.length + 1 + c - 1 = xs.length + c := by omega
        rw [e0, e1, Nat.add_div_right _ (by omega)]
      · have e0 : xs.length + 1 - c = 0 := by omega
        rw [e0]
        have e1 : (0 + c - 1) / c = 0 := Nat.div_eq_of_lt (by omega)
        have e2 : (xs.length + 1 + c - 1) / c = 1 := Nat.div_eq_of_lt_le (by omega) (by omega)
        rw [e1, e2]

theorem chunksGo_mem {α : Type} (c : Nat) (hc : 1 ≤ c) :
    ∀ (g : Nat) (l : List α) (ch : List α), ch ∈ chunksGo c g l → ch ≠ [] ∧ ch.length ≤ c := by
  intro g
  induction g with
  | zero =>
    intro l ch h
    match l with
    | [] => simp [chunksGo] at h
    | x :: xs => simp [chunksGo] at h
  | succ g ih =>
    intro l ch h
    match l with
    | [] => simp [chunksGo] at h
    | x :: xs =>
      simp only [chunksGo, List.mem_cons] at h
      rcases h with rfl | h
      · refine ⟨?_, List.length_take_le _ _⟩
        obtain ⟨k, rfl⟩ : ∃ k, c = k + 1 := ⟨c - 1, by omega⟩
        simp [List.take_succ_cons]
      · exact ih _ _ h

theorem mainLoopGo_submitted {α β : Type} (c : Nat)
    (post : Nat → List α → Option (ZResponse β)) :
    ∀ (g i : Nat) (l : List α), (mainLoopGo c post g i l).aborted = false →
      (mainLoopGo c post g i l).submitted = chunksGo c g l := by
  intro g
  induction g with
  | zero =>
    intro i l hab
    match l with
    | [] => rfl
    | x :: xs => simp [mainLoopGo] at hab
  | succ g ih =>
    intro i l hab
    match l with
    | [] => rfl
    | x :: xs =>
      cases hp : post i ((x :: xs).take c) with
      | none => simp [mainLoopGo, hp] at hab
      | some r =>
        simp only [mainLoopGo, hp] at hab ⊢
        simp only [chunksGo]
        exact congrArg _ (ih _ _ hab)

theorem mainLoopGo_posted {α β : Type} (c : Nat)
    (post : Nat → List α → Option (ZResponse β)) :
    ∀ (g i : Nat) (l : List α), (mainLoopGo c post g i l).aborted = false →
      (mainLoopGo c post g i l).posted.length = (mainLoopGo c post g i l).totalSuccessful := by
  intro g
  induction g with
  | zero =>
    intro i l hab
    match l with
    | [] => rfl
    | x :: xs => simp [mainLoopGo] at hab
  | succ g ih =>
    intro i l hab
    match l with
    | [] => rfl
    | x :: xs =>
      cases hp : post i ((x :: xs).take c) with
      | none => simp [mainLoopGo, hp] at hab
      | some r =>
        simp only [mainLoopGo, hp] at hab ⊢
        rw [List.length_append, ih _ _ hab]

theorem mainLoopGo_sleeps {α β : Type} (c : Nat)
    (post : Nat → List α → Option (ZResponse β)) (hc : 1 ≤ c) :
    ∀ (g i : Nat) (l : List α), l.length ≤ g →
      (mainLoopGo c post g i l).aborted = false →
      (mainLoopGo c post g i l).sleeps = (l.length + c - 1) / c - 2 := by
  intro g
  induction g with
  | zero =>
    intro i l hl _
    match l with
    | [] => simp [mainLoopGo, Nat.div_eq_of_lt (show c - 1 < c by omega)]
    | x :: xs => simp at hl
  | succ g ih =>
    intro i l hl hab
    match l with
    | [] => simp [mainLoopGo, Nat.div_eq_of_lt (show c - 1 < c by omega)]
    | x :: xs =>
      simp only [List.length_cons] at hl
      cases hp : post i ((x :: xs).take c) with
      | none => simp [mainLoopGo, hp] at hab
      | some r =>
        simp only [mainLoopGo, hp] at hab ⊢
        have hdrop : (xs.drop (c - 1)).length = xs.length + 1 - c := by
          rw [List.length_drop]; omega
        rw [ih _ _ (by rw [hdrop]; omega) hab, hdrop]
        simp only [List.length_cons]
        by_cases h2c : 2 * c < xs.length + 1
        · have e0 : xs.length + 1 - c + c - 1 = xs.length := by omega
          have e1 : xs.length + 1 + c - 1 = xs.length + c := by omega
          rw [if_pos (by omega), e0, e1, Nat.add_div_right _ (by omega)]
          have e2 : 2 ≤ xs.length / c := (Nat.le_div_iff_mul_le (by omega)).2 (by omega)
          omega
        · by_cases hcn : c < xs.length + 1
          · have e0 : xs.length + 1 - c + c - 1 = xs.length := by omega
            have e1 : xs.length + 1 + c - 1 = xs.length + c := by omega
            rw [if_neg (by omega), e0, e1, Nat.add_div_right _ (by omega)]
            have e2 : xs.length / c < 2 := (Nat.div_lt_iff_lt_mul (by omega)).2 (by omega)
            omega
          · have e0 : xs.length + 1 - c = 0 := by omega
            rw [if_neg (by omega), e0]
            have e1 : (0 + c - 1) / c = 0 := Nat.div_eq_of_lt (by omega)
            have e2 : (xs.length + 1 + c - 1) / c = 1 := Nat.div_eq_of_lt_le (by omega) (by omega)
            rw [e1, e2]

/- Helper lemmas about the mapping stage. -/

theorem seriesBlock_key_version (env : MapEnv) (v : Video) (p : Payload) :
    (seriesBlock env v p).1.key = p.key ∧ (seriesBlock env v p).1.version = p.version := by
  unfold seriesBlock createCollection
  repeat' split <;> try simp_all [collections]

theorem formatItems_creates_len (env : MapEnv) (v : Video) (tmpl : Option Template) :
    (formatItems env v tmpl).2.creates.length =
      if jsTruthyStr v.series && !(jsTruthyStr v.zoteroSeries) then 1 else 0 := by
  unfold formatItems seriesBlock createCollection
  repeat' split <;> try simp_all [collections]

theorem mapStage_creates_len (env : MapEnv) (tmpl : Option Template) :
    ∀ vs : List Video,
      (mapStage env tmpl vs).2.creates.length =
        (vs.filter fun v => jsTruthyStr v.series && !(jsTruthyStr v.zoteroSeries)).length := by
  intro vs
  induction vs with
  | nil => rfl
  | cons v vs ih =>
    simp only [mapStage, List.filter_cons]
    rw [List.length_append, formatItems_creates_len, ih]
    by_cases hp : (jsTruthyStr v.series && !(jsTruthyStr v.zoteroSeries)) = true
    · simp [hp]; omega
    · simp [hp]

/- Helper lemmas about the queueAsync promise chain. -/

theorem lastStep_foldl_chain {σ α : Type} :
    ∀ (ms : List (σ → σ × α)) (a : Comp σ α) (f : σ → σ × α) (s : σ × List α),
      (lastStep (ms.foldl chainStep a) f s).1 =
        runThunks (ms ++ [f]) (pushVal (a s).2 (a s).1) := by
  intro ms
  induction ms with
  | nil => intro a f s; rfl
  | cons m ms ih =>
    intro a f s
    rw [List.cons_append, List.foldl_cons, ih (chainStep a m) f s]
    rfl

theorem runThunks_seqMap {σ α : Type} :
    ∀ (ts : List (σ → σ × α)) (w : σ) (r : List α),
      runThunks ts (w, r) = ((seqMap ts w).1, r ++ (seqMap ts w).2) := by
  intro ts
  induction ts with
  | nil => intro w r; simp [runThunks, seqMap]
  | cons f ts ih =>
    intro w r
    simp only [runThunks, seqMap, liftThunk, pushVal]
    rw [ih]
    simp

/-- Claim C1: for every payload list `P` and chunk size `c ≥ 1`, a
submission loop that runs to completion splits `P` into `⌈|P|/c⌉` ordered,
contiguous, non-overlapping chunks each of size at most `c`, submits each
chunk exactly once in order, and the concatenation of the submitted chunks
equals `P` (no payload dropped or duplicated). -/
theorem claim1_chunked_submission {α β : Type} (c : Nat)
    (post : Nat → List α → Option (ZResponse β)) (P : List α)
    (hc : 1 ≤ c) (hdone : (mainLoop c post P).aborted = false) :
    (mainLoop c post P).submitted = chunksOf c P ∧
    (chunksOf c P).length = (P.length + c - 1) / c ∧
    (∀ ch ∈ chunksOf c P, ch ≠ [] ∧ ch.length ≤ c) ∧
    (chunksOf c P).flatten = P :=
  ⟨mainLoopGo_submitted c post P.length 0 P hdone,
   chunksGo_length c hc P.length P (Nat.le_refl _),
   fun ch h => chunksGo_mem c hc P.length P ch h,
   chunksGo_flatten c hc P.length P (Nat.le_refl _)⟩

/-- Witness for C1: a completed run on seven payloads with chunk size 5. -/
theorem claim1_chunked_submission_witness :
    (mainLoop 5 postEcho [0, 1, 2, 3, 4, 5, 6]).submitted = chunksOf 5 [0, 1, 2, 3, 4, 5, 6] ∧
    (chunksOf 5 ([0, 1, 2, 3, 4, 5, 6] : List Nat)).length =
      (([0, 1, 2, 3, 4, 5, 6] : List Nat).length + 5 - 1) / 5 ∧
    (∀ ch ∈ chunksOf 5 ([0, 1, 2, 3, 4, 5, 6] : List Nat), ch ≠ [] ∧ ch.length ≤ 5) ∧
    (chunksOf 5 ([0, 1, 2, 3, 4, 5, 6] : List Nat)).flatten = [0, 1, 2, 3, 4, 5, 6] :=
  claim1_chunked_submission 5 postEcho [0, 1, 2, 3, 4, 5, 6] (by decide) (by decide)

/-- Claim C2 counterexample: with 7 payloads and chunk size 5 the loop
posts two chunks of sizes 5 and 2 but performs zero inter-chunk waits —
not the one wait the claim requires — because the sleep guard
`items.length > program.chunkSize` is already false once only the final
short chunk remains. -/
theorem claim2_pacing_counterexample :
    (mainLoop 5 postEcho [0, 1, 2, 3, 4, 5, 6]).submitted.map List.length = [5, 2] ∧
    (mainLoop 5 postEcho [0, 1, 2, 3, 4, 5, 6]).sleeps = 0 ∧
    (mainLoop 5 postEcho [0, 1, 2, 3, 4, 5, 6]).sleeps ≠ 1 := by decide

/-- Claim C2 (amended): the submitter sleeps after posting a chunk exactly
when more than `chunkSize` items remain unposted, so a completed run with
chunk size `c ≥ 1` performs `⌈|P|/c⌉ - 2` inter-chunk waits (truncated at
zero): every pair of consecutive chunks is separated by a wait except the
final pair.  In particular 7 payloads with chunk size 5 yield two chunks
of sizes 5 and 2 and zero waits. -/
theorem claim2_pacing_amended {α β : Type} (c : Nat)
    (post : Nat → List α → Option (ZResponse β)) (P : List α)
    (hc : 1 ≤ c) (hdone : (mainLoop c post P).aborted = false) :
    (mainLoop c post P).sleeps = (P.length + c - 1) / c - 2 :=
  mainLoopGo_sleeps c post hc P.length 0 P (Nat.le_refl _) hdone

/-- Witness for the amended C2: twelve payloads with chunk size 5 give
three chunks and exactly one wait. -/
theorem claim2_pacing_amended_witness :
    (mainLoop 5 postEcho [0, 1, 2, 3, 4, 5, 6, 7, 8, 9, 10, 11]).sleeps =
      (([0, 1, 2, 3, 4, 5, 6, 7, 8, 9, 10, 11] : List Nat).length + 5 - 1) / 5 - 2 :=
  claim2_pacing_amended 5 postEcho [0, 1, 2, 3, 4, 5, 6, 7, 8, 9, 10, 11] (by decide) (by decide)

/-- Claim C10: `queueAsync` on a nonempty list of thunks is extensionally
equal to a strictly sequential map: it threads the world through the
thunks in array order (each thunk running only on the state left by its
predecessor) and returns the list of their values in order. -/
theorem claim10_queue_async {σ α : Type} (fs : List (σ → σ × α)) (w : σ) (h : fs ≠ []) :
    queueAsync fs w = seqMap fs w := by
  match fs with
  | [f] => rfl
  | f0 :: f1 :: rest =>
    have hlen : (f0 :: f1 :: rest).length > 1 := by simp
    simp only [queueAsync, if_pos hlen]
    rw [lastStep_foldl_chain]
    rw [List.dropLast_append_getLast (List.cons_ne_nil f1 rest)]
    show runThunks (f1 :: rest) ((f0 w).1, [] ++ [(f0 w).2]) = _
    rw [List.nil_append, runThunks_seqMap]
    simp [seqMap]

/-- Witness for C10 on three concrete thunks over a counter world. -/
theorem claim10_queue_async_witness :
    queueAsync [thunkA, thunkB, thunkC] 0 = seqMap [thunkA, thunkB, thunkC] 0 :=
  claim10_queue_async [thunkA, thunkB, thunkC] 0 (List.cons_ne_nil _ _)

/-- Claim C3 counterexample: a presenter whose `lastName` is the sentinel
`"Unknown"` is not excluded from the contributor list — the `.map`
callback's `if` has no `else`, so the list keeps an `undefined` slot for
that presenter (here `[none]`, of length 1, where exclusion would give the
empty list). -/
theorem claim3_presenters_counterexample :
    presentersOf [presenterUnknown] = [none] ∧
    (presentersOf [presenterUnknown]).length ≠ 0 := by decide

/-- Claim C3 (amended): the contributor list always has exactly one slot
per presenter; a presenter with surname `"Unknown"` occupies its slot with
an `undefined` entry (it is not removed), and every other presenter
missing a truthy `firstName` or `lastName` is emitted as a single
contributor entry with one combined `name` field — that field is the
`firstName` when it is present and nonempty, otherwise the string coercion
of the `lastName` (so `"undefined"` when both parts are missing). -/
theorem claim3_presenters_amended (ps : List Presenter) (p : Presenter) :
    (presentersOf ps).length = ps.length ∧
    (mapPresenter p = none ↔ p.lastName = some "Unknown") ∧
    (p.lastName ≠ some "Unknown" →
      ¬(jsTruthyStr p.firstName = true ∧ jsTruthyStr p.lastName = true) →
      mapPresenter p = some (.single "contributor" (combinedName p))) ∧
    (∀ f, p.firstName = some f → f ≠ "" → combinedName p = f) ∧
    (∀ l, jsTruthyStr p.firstName = false → p.lastName = some l → combinedName p = l) ∧
    (jsTruthyStr p.firstName = false → p.lastName = none → combinedName p = "undefined") := by
  refine ⟨?_, ?_, ?_, ?_, ?_, ?_⟩
  · cases ps with
    | nil => simp [presentersOf]
    | cons q qs => simp [presentersOf]
  · by_cases h : p.lastName = some "Unknown" <;> simp [mapPresenter, h]
  · intro h1 h2
    have hcond : (!(jsTruthyStr p.firstName) || !(jsTruthyStr p.lastName)) = true := by
      cases hf : jsTruthyStr p.firstName <;> cases hl : jsTruthyStr p.lastName <;> simp_all
    simp [mapPresenter, h1, hcond]
  · intro f hf hne
    have hfe : f.isEmpty = false := by
      cases he : f.isEmpty
      · rfl
      · exact absurd ((String.isEmpty_iff f).1 he) hne
    have ht : jsTruthyStr (some f) = true := by simp [jsTruthyStr, hfe]
    simp [combinedName, hf, ht]
  · intro l h1 h2
    have hl : ("" ++ l : String) = l := by cases l; rfl
    simp only [combinedName, h1, Bool.false_eq_true, if_false, jsStrCoe, h2, hl]
    by_cases hle : l.isEmpty = true
    · rw [String.isEmpty_iff] at hle
      simp [hle]
    · simp [hle]
  · intro h1 h2
    simp [combinedName, h1, jsStrCoe, h2]
    decide

/-- Witness for the amended C3 on concrete presenters: the Unknown
presenter keeps an undefined slot, and a given-name-only presenter gets a
single combined name field. -/
theorem claim3_presenters_amended_witness :
    (presentersOf [presenterUnknown, presenterGivenOnly]).length =
      [presenterUnknown, presenterGivenOnly].length ∧
    (mapPresenter presenterUnknown = none ↔ presenterUnknown.lastName = some "Unknown") ∧
    (presenterGivenOnly.lastName ≠ some "Unknown" →
      ¬(jsTruthyStr presenterGivenOnly.firstName = true ∧
        jsTruthyStr presenterGivenOnly.lastName = true) →
      mapPresenter presenterGivenOnly =
        some (.single "contributor" (combinedName presenterGivenOnly))) := by
  refine ⟨?_, ?_, ?_⟩
  · exact (claim3_presenters_amended [presenterUnknown, presenterGivenOnly] presenterUnknown).1
  · exact (claim3_presenters_amended [] presenterUnknown).2.1
  · exact fun h1 h2 => (claim3_presenters_amended [] presenterGivenOnly).2.2.1 h1 h2

/-- Claim C4: for every record and template, the payload built by
`formatItems` carries `key` exactly when it carries `version`: both are
set exactly when the record's `zoteroKey` and `zoteroVersion` are both
truthy (present and nonempty/nonzero), in which case they equal those
values — producing an update-shaped payload on re-sync — and neither is
set otherwise. -/
theorem claim4_key_version (env : MapEnv) (video : Video) (tmpl : Option Template) :
    ((formatItems env video tmpl).1.key.isSome = true ↔
      (formatItems env video tmpl).1.version.isSome = true) ∧
    ((formatItems env video tmpl).1.key.isSome = true ↔
      (jsTruthyStr video.zoteroKey && jsTruthyNat video.zoteroVersion) = true) ∧
    (∀ k n, video.zoteroKey = some k → video.zoteroVersion = some n → k ≠ "" → n ≠ 0 →
      (formatItems env video tmpl).1.key = some k ∧
      (formatItems env video tmpl).1.version = some n) ∧
    ((jsTruthyStr video.zoteroKey && jsTruthyNat video.zoteroVersion) = false →
      (formatItems env video tmpl).1.key = none ∧
      (formatItems env video tmpl).1.version = none) := by
  obtain ⟨hk, hv⟩ := seriesBlock_key_version env video (formatItemsCore video tmpl)
  have hfk : (formatItems env video tmpl).1.key = (formatItemsCore video tmpl).key := hk
  have hfv : (formatItems env video tmpl).1.version = (formatItemsCore video tmpl).version := hv
  rw [hfk, hfv]
  cases hb : (jsTruthyStr video.zoteroKey && jsTruthyNat video.zoteroVersion) with
  | false =>
    refine ⟨?_, ?_, ?_, ?_⟩
    · simp [formatItemsCore, hb]
    · simp [formatItemsCore, hb]
    · intro k n hkk hnn hke hne
      exfalso
      have hkf : k.isEmpty = false := by
        cases he : k.isEmpty
        · rfl
        · exact absurd ((String.isEmpty_iff k).1 he) hke
      have hkt : jsTruthyStr (some k) = true := by simp [jsTruthyStr, hkf]
      have hnt : jsTruthyNat (some n) = true := by simp [jsTruthyNat, hne]
      rw [hkk, hnn, hkt, hnt] at hb
      simp at hb
    · intro _
      simp [formatItemsCore, hb]
  | true =>
    obtain ⟨h1, h2⟩ := Bool.and_eq_true_iff.1 hb
    cases hok : video.zoteroKey with
    | none => rw [hok] at h1; simp [jsTruthyStr] at h1
    | some s =>
      cases hov : video.zoteroVersion with
      | none => rw [hov] at h2; simp [jsTruthyNat] at h2
      | some m =>
        rw [hok] at h1
        rw [hov] at h2
        refine ⟨?_, ?_, ?_, ?_⟩
        · simp [formatItemsCore, hb, hok, hov]
        · simp [formatItemsCore, hb, hok, hov, h1, h2]
        · intro k n hk' hn' _ _
          injection hk' with hsk
          injection hn' with hnm
          subst hsk
          subst hnm
          constructor <;> simp [formatItemsCore, hb, hok, hov] <;> exact ⟨h1, h2⟩
        · intro hfalse
          simp [hb] at hfalse

/-- Witness for C4: a record that already carries `zoteroKey`/`zoteroVersion`
yields an update-shaped payload with exactly those values. -/
theorem claim4_key_version_witness :
    (formatItems envCreateFail videoSynced none).1.key = some "ZKEY1234" ∧
    (formatItems envCreateFail videoSynced none).1.version = some 7 :=
  (claim4_key_version envCreateFail videoSynced none).2.2.1 "ZKEY1234" 7 rfl rfl
    (by decide) (by decide)

/-- Claim C5: when both date filters are truthy, the params object sent to
the source list endpoint carries exactly one of them — never both, never
neither — chosen deterministically by the relative positions of the two
keys on the `program` object; when only one filter is truthy, exactly that
one is sent. -/
theorem claim5_date_filter (pc pm : Option String) (b : Bool) :
    (jsTruthyStr pc = true → jsTruthyStr pm = true →
      ¬((resolveDateParams pc pm b).1.isSome = true ∧
        (resolveDateParams pc pm b).2.isSome = true) ∧
      ((resolveDateParams pc pm b).1.isSome = true ∨
        (resolveDateParams pc pm b).2.isSome = true) ∧
      resolveDateParams pc pm b = (if b then (pc, none) else (none, pm))) ∧
    (jsTruthyStr pc = true → jsTruthyStr pm = false →
      resolveDateParams pc pm b = (pc, none)) ∧
    (jsTruthyStr pc = false → jsTruthyStr pm = true →
      resolveDateParams pc pm b = (none, pm)) := by
  refine ⟨?_, ?_, ?_⟩
  · intro h1 h2
    cases pc with
    | none => simp [jsTruthyStr] at h1
    | some s =>
      cases pm with
      | none => simp [jsTruthyStr] at h2
      | some t =>
        cases b <;> simp [resolveDateParams, h1, h2]
  · intro h1 h2
    simp [resolveDateParams, h1, h2]
  · intro h1 h2
    simp [resolveDateParams, h1, h2]

/-- Witness for C5: both filters supplied, both key orders, and each
filter supplied alone. -/
theorem claim5_date_filter_witness :
    (¬((resolveDateParams (some "2021-01-01") (some "2021-02-02") true).1.isSome = true ∧
       (resolveDateParams (some "2021-01-01") (some "2021-02-02") true).2.isSome = true) ∧
     ((resolveDateParams (some "2021-01-01") (some "2021-02-02") true).1.isSome = true ∨
      (resolveDateParams (some "2021-01-01") (some "2021-02-02") true).2.isSome = true) ∧
     resolveDateParams (some "2021-01-01") (some "2021-02-02") true =
       (if true then (some "2021-01-01", none) else (none, some "2021-02-02"))) ∧
    resolveDateParams (some "2021-01-01") none false = (some "2021-01-01", none) :=
  ⟨(claim5_date_filter (some "2021-01-01") (some "2021-02-02") true).1 (by decide) (by decide),
   (claim5_date_filter (some "2021-01-01") none false).2.1 (by decide) (by decide)⟩

/-- Claim C6 counterexample: two records in the same series "S", both
fetched without a series collection key, are mapped in one run against a
collection-create endpoint that always succeeds — yet the run issues two
identical create calls (and two write-backs) instead of reusing the first
created collection, because each record consults only its own fetched
snapshot (`video.zoteroSeries`), never the in-run write-back. -/
theorem claim6_series_counterexample :
    (mapStage envCreateOk none [videoS, videoS]).2.creates =
      [("S", "HYQEFRGR"), ("S", "HYQEFRGR")] ∧
    (mapStage envCreateOk none [videoS, videoS]).2.creates.length ≠ 1 ∧
    (mapStage envCreateOk none [videoS, videoS]).2.updates =
      [("recSERIESAAAAAAA1", "NEWKEY12"), ("recSERIESAAAAAAA1", "NEWKEY12")] := by decide

/-- Claim C6 (amended): a record whose series already carries a collection
identifier reuses it with no create call; a record whose series lacks one
triggers exactly one synchronous create under the fixed series parent
`HYQEFRGR`, and on success attaches the first returned key to the payload
and issues one write-back to the source store against the series' own
record (`video.seriesId`), while a failed creation leaves the payload
without that membership.  The write-back is only visible to later runs:
within a single run the number of create calls equals the number of
records whose fetched snapshot has a truthy series and no collection key,
so records in the same series re-create rather than reuse. -/
theorem claim6_series_amended (env : MapEnv) (video : Video) (tmpl : Option Template)
    (videos : List Video) :
    (jsTruthyStr video.series = true → jsTruthyStr video.zoteroSeries = true →
      (formatItems env video tmpl).2 = ⟨[], []⟩ ∧
      (formatItems env video tmpl).1.collectionKeys =
        (formatItemsCore video tmpl).collectionKeys ++ [video.zoteroSeries.getD ""]) ∧
    (jsTruthyStr video.series = true → jsTruthyStr video.zoteroSeries = false →
      (formatItems env video tmpl).2.creates = [(video.series.getD "", "HYQEFRGR")] ∧
      (∀ keys fl, env.createResult (video.series.getD "") = some ⟨some keys, fl⟩ →
        0 < keys.length →
        (formatItems env video tmpl).1.collectionKeys =
          (formatItemsCore video tmpl).collectionKeys ++ [keys.headI] ∧
        (formatItems env video tmpl).2.updates = [(video.seriesId, keys.headI)]) ∧
      (env.createResult (video.series.getD "") = none →
        (formatItems env video tmpl).1.collectionKeys =
          (formatItemsCore video tmpl).collectionKeys ∧
        (formatItems env video tmpl).2.updates = [])) ∧
    ((mapStage env tmpl videos).2.creates.length =
      (videos.filter fun v => jsTruthyStr v.series && !(jsTruthyStr v.zoteroSeries)).length) := by
  refine ⟨?_, ?_, mapStage_creates_len env tmpl videos⟩
  · intro h1 h2
    constructor <;> simp [formatItems, seriesBlock, h1, h2]
  · intro h1 h2
    refine ⟨?_, ?_, ?_⟩
    · cases h3 : env.createResult (video.series.getD "") with
      | none => simp [formatItems, seriesBlock, createCollection, collections, h1, h2, h3]
      | some d =>
        obtain ⟨ds, df⟩ := d
        cases ds with
        | none => simp [formatItems, seriesBlock, createCollection, collections, h1, h2, h3]
        | some keys =>
          by_cases hk : 0 < keys.length <;>
            simp [formatItems, seriesBlock, createCollection, collections, h1, h2, h3, hk]
    · intro keys fl h3 hk
      constructor <;>
        simp [formatItems, seriesBlock, createCollection, collections, h1, h2, h3, hk]
    · intro h3
      constructor <;>
        simp [formatItems, seriesBlock, createCollection, collections, h1, h2, h3]

/-- Witness for the amended C6: a reuse record makes no remote call; a
creating record issues one create under `HYQEFRGR` and one write-back. -/
theorem claim6_series_amended_witness :
    ((formatItems envCreateOk { videoS with zoteroSeries := some "OLDKEY99" } none).2 =
      (⟨[], []⟩ : MapFx) ∧
     (formatItems envCreateOk { videoS with zoteroSeries := some "OLDKEY99" } none).1.collectionKeys =
      (formatItemsCore { videoS with zoteroSeries := some "OLDKEY99" } none).collectionKeys ++
        ["OLDKEY99"]) ∧
    ((formatItems envCreateOk videoS none).1.collectionKeys =
      (formatItemsCore videoS none).collectionKeys ++ [(["NEWKEY12"] : List String).headI] ∧
     (formatItems envCreateOk videoS none).2.updates =
      [(videoS.seriesId, (["NEWKEY12"] : List String).headI)]) :=
  ⟨(claim6_series_amended envCreateOk { videoS with zoteroSeries := some "OLDKEY99" } none []).1
      (by decide) (by decide),
   ((claim6_series_amended envCreateOk videoS none []).2.1 (by decide) (by decide)).2.1
      ["NEWKEY12"] [] rfl (by decide)⟩

/-- Claim C7: a raw-dump (json) run in which `N ≥ 1` records are fetched
and the dump write succeeds writes exactly the fetched records, verbatim
and in order, to the dump file and exits with code 0 without any call to
the target system: no template fetch, no item post, no collection create,
no reconciliation. -/
theorem claim7_raw_dump (env : RunEnv) (videos : List Video)
    (hf : env.fetched = some videos) (hn : 0 < videos.length)
    (hj : env.jsonMode = true) (hw : env.writeOk = true) :
    mainRun env = ⟨some videos, false, [], [], [], none, 0⟩ := by
  simp [mainRun, hf, hn, hj, hw]

/-- Witness for C7: a json-mode run fetching one record. -/
theorem claim7_raw_dump_witness :
    mainRun envJson = ⟨some [video0], false, [], [], [], none, 0⟩ :=
  claim7_raw_dump envJson [video0] rfl (by decide) rfl rfl

/-- Claim C8: in a completed non-dump run, reconciliation happens exactly
when at least one item succeeded across all chunks, as a single batched
call with exactly one entry per successful item; each entry's source
record identifier is recovered from the fixed `rec[\w]{14}$` pattern at
the end of the item's `archiveLocation`, and that extraction round-trips
the `formatItems` encoding (`archiveBase ++ recordId`) for every record id
of the form `rec` followed by 14 word characters. -/
theorem claim8_reconciliation :
    (∀ (env : RunEnv) (videos : List Video),
      env.fetched = some videos → 0 < videos.length → env.jsonMode = false →
      (mainLoop env.chunkSize env.postResult (mapStage env.mapEnv env.template videos).1).aborted
          = false →
      (((mainRun env).reconCall.isSome = true) ↔
        0 < (mainLoop env.chunkSize env.postResult
              (mapStage env.mapEnv env.template videos).1).totalSuccessful) ∧
      ((mainRun env).reconCall =
        if 0 < (mainLoop env.chunkSize env.postResult
                  (mapStage env.mapEnv env.template videos).1).posted.length
        then some ((mainLoop env.chunkSize env.postResult
                  (mapStage env.mapEnv env.template videos).1).posted.map mkSyncEntry)
        else none) ∧
      ((mainLoop env.chunkSize env.postResult
          (mapStage env.mapEnv env.template videos).1).posted.length =
        (mainLoop env.chunkSize env.postResult
          (mapStage env.mapEnv env.template videos).1).totalSuccessful)) ∧
    (∀ rid : String, rid.data.length = 17 → rid.data.take 3 = ['r', 'e', 'c'] →
      (rid.data.drop 3).all isWordChar = true →
      matchRecId (archiveBase ++ rid) = some rid) ∧
    (∀ (env : MapEnv) (video : Video) (tmpl : Option Template),
      (formatItems env video tmpl).1.archiveLocation = archiveBase ++ video.recordId) ∧
    (∀ it : ZItem, mkSyncEntry it =
      ⟨matchRecId it.data.archiveLocation, it.key, it.version⟩) := by
  refine ⟨?_, ?_, ?_, fun it => rfl⟩
  case refine_3 =>
    intro env video tmpl
    have hsb : (seriesBlock env video (formatItemsCore video tmpl)).1.archiveLocation =
        (formatItemsCore video tmpl).archiveLocation := by
      unfold seriesBlock createCollection
      repeat' split <;> try simp_all [collections]
    have hfa : (formatItems env video tmpl).1.archiveLocation =
        (formatItemsCore video tmpl).archiveLocation := hsb
    rw [hfa]
    simp [formatItemsCore]
  · intro env videos hf hn hj hdone
    have hlen : (mainLoop env.chunkSize env.postResult
          (mapStage env.mapEnv env.template videos).1).posted.length =
        (mainLoop env.chunkSize env.postResult
          (mapStage env.mapEnv env.template videos).1).totalSuccessful :=
      mainLoopGo_posted env.chunkSize env.postResult
        (mapStage env.mapEnv env.template videos).1.length 0
        (mapStage env.mapEnv env.template videos).1 hdone
    have hrun : (mainRun env).reconCall =
        (if 0 < (mainLoop env.chunkSize env.postResult
                  (mapStage env.mapEnv env.template videos).1).posted.length
         then some ((mainLoop env.chunkSize env.postResult
                  (mapStage env.mapEnv env.template videos).1).posted.map mkSyncEntry)
         else none) := by
      simp [mainRun, hf, hn, hj, hdone]
    refine ⟨?_, hrun, hlen⟩
    rw [hrun, ← hlen]
    by_cases hp : 0 < (mainLoop env.chunkSize env.postResult
        (mapStage env.mapEnv env.template videos).1).posted.length
    · simp [hp]
    · simp [hp]
  · intro rid h1 h2 h3
    have hdata : (archiveBase ++ rid).data = archiveBase.data ++ rid.data :=
      String.data_append _ _
    have hsub : (archiveBase.data ++ rid.data).length - 17 = archiveBase.data.length := by
      rw [List.length_append, h1]
      omega
    have hdrop : (archiveBase.data ++ rid.data).drop
        ((archiveBase.data ++ rid.data).length - 17) = rid.data := by
      rw [hsub]
      exact List.drop_left _ _
    simp only [matchRecId, hdata, hdrop]
    rw [if_pos ⟨by rw [List.length_append, h1]; omega, h2, h3⟩]

/-- Witness for C8: the concrete extraction round-trip and the
reconciliation shape of a completed one-chunk run with one success. -/
theorem claim8_reconciliation_witness :
    matchRecId (archiveBase ++ "recABCDEFGHIJKLMN") = some "recABCDEFGHIJKLMN" ∧
    ((((mainRun envRecon).reconCall.isSome = true) ↔
        0 < (mainLoop envRecon.chunkSize envRecon.postResult
              (mapStage envRecon.mapEnv envRecon.template [video0]).1).totalSuccessful) ∧
      ((mainRun envRecon).reconCall =
        if 0 < (mainLoop envRecon.chunkSize envRecon.postResult
                  (mapStage envRecon.mapEnv envRecon.template [video0]).1).posted.length
        then some ((mainLoop envRecon.chunkSize envRecon.postResult
                  (mapStage envRecon.mapEnv envRecon.template [video0]).1).posted.map mkSyncEntry)
        else none) ∧
      ((mainLoop envRecon.chunkSize envRecon.postResult
          (mapStage envRecon.mapEnv envRecon.template [video0]).1).posted.length =
        (mainLoop envRecon.chunkSize envRecon.postResult
          (mapStage envRecon.mapEnv envRecon.template [video0]).1).totalSuccessful)) :=
  ⟨claim8_reconciliation.2.1 "recABCDEFGHIJKLMN" (by decide) (by decide) (by decide),
   claim8_reconciliation.1 envRecon [video0] rfl (by decide) rfl (by decide)⟩

/-- Claim C9 counterexample: a run whose source fetch fails (`getVideos`
catches the error and returns `undefined`) reaches the top-level `catch`,
which only logs; the process then terminates normally with exit code 0,
not the non-zero code the claim requires for a fatal abort. -/
theorem claim9_exit_code_counterexample :
    envFetchFail.fetched = none ∧ (mainRun envFetchFail).exitCode = 0 := by decide

/-- Claim C9 (amended): the process exits 0 on a successful sync and on
raw-dump completion, but also on every fatal abort (source fetch failure,
no records retrieved, chunk transport failure), because the top-level
catch only logs the error; the only non-zero exit code is 1, produced
exactly when a raw-dump run with records fetched fails to write the dump
file. -/
theorem claim9_exit_code_amended (env : RunEnv) :
    (mainRun env).exitCode =
      if (env.fetched.elim false fun v => decide (0 < v.length)) && env.jsonMode
          && !env.writeOk
      then 1 else 0 := by
  rcases hf : env.fetched with _ | videos
  · simp [mainRun, hf]
  · by_cases hn : 0 < videos.length
    · cases hj : env.jsonMode with
      | false =>
        simp [mainRun, hf, hn, hj]
        split <;> rfl
      | true =>
        cases hw : env.writeOk with
        | false => simp [mainRun, hf, hn, hj, hw]
        | true => simp [mainRun, hf, hn, hj, hw]
    · simp [mainRun, hf, hn]
